import Mathlib

/-!
# Verification of the Pocketflow SDK socket/workflow subsystem

A shallow embedding of the remote workflow-execution client of the
Pocketflow SDK, covering:

* `runWorkflow` from `src/unnamed/part_013` (the revision that wraps the
  three terminal events `run_complete` / `run_error` / `workflow_error`
  with an automatic `safeDisconnect`), together with its three built-in
  handler profiles `defaultHandlers`, `quietHandlers`, `prettyLogHandlers`;
* the handler profiles of the `src/src/socket/workflow.ts` revision
  (which adds the `final_output` event), embedded as `defaultHandlersWts`,
  `quietHandlersWts`, `prettyLogHandlersWts`;
* the URL normalization and the `feedback_request` listener of
  `connectSocket` from `src/src/socket/connect.ts`.

The socket is modelled as an explicit state record; event dispatch is a
pure state transformer.  Caller-supplied handlers are modelled by their
observable behaviour: given the event payload they either return normally
or throw (console logging inside the built-in handlers is invisible to
every property considered here and is modelled as returning normally).
-/

set_option maxHeartbeats 1000000

/-- A JavaScript-like value, used for event payloads and workflow inputs.
Numbers are modelled as integers (no claim depends on float behaviour). -/
inductive Value where
  | null
  | undef
  | str (s : String)
  | boolV (b : Bool)
  | num (n : Int)
  | obj (fields : List (String × Value))

/-- JavaScript truthiness for `Value`: `null`, `undefined`, `""`, `false`
and `0` are falsy, every object is truthy. -/
def truthy : Value → Bool
  | Value.null => false
  | Value.undef => false
  | Value.str s => !(s = "")
  | Value.boolV b => b
  | Value.num n => !(n = 0)
  | Value.obj _ => true

/-- What a caller-level handler does when invoked: return normally or
throw an exception carrying a message. -/
inductive HandlerOutcome where
  | ok
  | throws (msg : String)

/-- A caller-level event handler: an identity (used to observe which
handler was invoked) and its behaviour on a payload. -/
structure Handler where
  hid : String
  run : Value → HandlerOutcome

/-- A listener as installed on the socket by `runWorkflow`
(src/unnamed/part_013, lines 317-404).  Every listener wraps a
caller-level handler in `try/catch`; listeners for the three terminal
events additionally call `safeDisconnect` in a `finally` block.  The
`custom` flag records which registration loop installed it (it only
changes the text of the logged error message). -/
inductive Listener where
  | wrappedTerminal (custom : Bool) (h : Handler)
  | wrappedPlain (custom : Bool) (h : Handler)

/-- The state of one socket.io connection as observed by the claims:
connection flag, installed listeners (in registration order), events
emitted to the server, number of `disconnect()` calls, the trace of
handler invocations `(handler id, event kind)`, the error log, and
whether `socket.emit` throws (`some msg` models a broken transport
whose `emit` raises `Error(msg)`). -/
structure SocketState where
  connected : Bool
  emitError : Option String
  listeners : List (String × Listener)
  emitted : List (String × Value)
  disconnectCalls : Nat
  invoked : List (String × String)
  errorLog : List String

/-- The listeners registered for event kind `k`, in order (list form). -/
def keyedListeners (k : String) : List (String × Listener) → List (String × Listener)
  | [] => []
  | p :: t => if p.1 = k then p :: keyedListeners k t else keyedListeners k t

/-- The listeners registered for event kind `k` on socket `s`. -/
def listenersFor (k : String) (s : SocketState) : List (String × Listener) :=
  keyedListeners k s.listeners

/-- Drop every listener for key `k` (list form). -/
def removeKey (k : String) : List (String × Listener) → List (String × Listener)
  | [] => []
  | p :: t => if p.1 = k then removeKey k t else p :: removeKey k t

/-- `socket.removeAllListeners(k)`. -/
def removeAllListeners (k : String) (s : SocketState) : SocketState :=
  { s with listeners := removeKey k s.listeners }

/-- `socket.on(k, l)`: append a listener for `k`. -/
def addListener (k : String) (l : Listener) (s : SocketState) : SocketState :=
  { s with listeners := s.listeners ++ [(k, l)] }

/-- `socket.emit(k, v)`: record an outgoing event. -/
def emitEvent (k : String) (v : Value) (s : SocketState) : SocketState :=
  { s with emitted := s.emitted ++ [(k, v)] }

/-- `safeDisconnect` from src/unnamed/part_013 lines 301-315: call
`socket.disconnect()` only when the socket is connected; never throws. -/
def safeDisconnect (s : SocketState) : SocketState :=
  if s.connected then
    { s with connected := false, disconnectCalls := s.disconnectCalls + 1 }
  else s

/-- The terminal-event test of src/unnamed/part_013 lines 324-328:
`eventType === "run_complete" || eventType === "run_error" ||
eventType === "workflow_error"`. -/
def isTerminal (k : String) : Bool :=
  decide (k = "run_complete") || decide (k = "run_error") || decide (k = "workflow_error")

/-- The message logged by the wrapper when a handler throws
(`Error in ${eventType} handler:` resp. `Error in custom ${eventName}
handler:`, with the caught error appended). -/
def handlerErrorMsg (custom : Bool) (k msg : String) : String :=
  (if custom then "Error in custom " else "Error in ") ++ k ++ " handler: " ++ msg

/-- Run one installed listener for event `k` with payload `data`:
the wrapper invokes the handler, catches and logs a thrown exception,
and for terminal listeners always runs `safeDisconnect` afterwards
(the `finally` block of src/unnamed/part_013 lines 330-340). -/
def dispatchOne (k : String) (l : Listener) (data : Value) (s : SocketState) : SocketState :=
  match l with
  | Listener.wrappedTerminal c h =>
    let s1 := { s with invoked := s.invoked ++ [(h.hid, k)] }
    let s2 := match h.run data with
      | HandlerOutcome.ok => s1
      | HandlerOutcome.throws m =>
          { s1 with errorLog := s1.errorLog ++ [handlerErrorMsg c k m] }
    safeDisconnect s2
  | Listener.wrappedPlain c h =>
    let s1 := { s with invoked := s.invoked ++ [(h.hid, k)] }
    match h.run data with
    | HandlerOutcome.ok => s1
    | HandlerOutcome.throws m =>
        { s1 with errorLog := s1.errorLog ++ [handlerErrorMsg c k m] }

/-- Deliver a server event of kind `k` with payload `data`: every listener
registered for `k` runs, in registration order. -/
def dispatchEvent (k : String) (data : Value) (s : SocketState) : SocketState :=
  (listenersFor k s).foldl (fun st p => dispatchOne k p.2 data st) s

/-- A built-in profile handler: the bodies in the source only write to the
console, which no property observes, so the behaviour is "return
normally"; the identity records which profile entry it is. -/
def mkH (n : String) : Handler := ⟨n, fun _ => HandlerOutcome.ok⟩

/-- `defaultHandlers` of src/unnamed/part_013 lines 62-106 (the verbose
profile), keys in source insertion order. -/
def defaultHandlers : List (String × Handler) :=
  [("run_error", mkH "default.run_error"),
   ("run_warning", mkH "default.run_warning"),
   ("run_complete", mkH "default.run_complete"),
   ("run_start", mkH "default.run_start"),
   ("stream_output", mkH "default.stream_output"),
   ("node_error", mkH "default.node_error"),
   ("workflow_received", mkH "default.workflow_received"),
   ("workflow_error", mkH "default.workflow_error")]

/-- `quietHandlers` of src/unnamed/part_013 lines 111-148. -/
def quietHandlers : List (String × Handler) :=
  [("run_error", mkH "quiet.run_error"),
   ("run_warning", mkH "quiet.run_warning"),
   ("run_complete", mkH "quiet.run_complete"),
   ("run_start", mkH "quiet.run_start"),
   ("stream_output", mkH "quiet.stream_output"),
   ("node_error", mkH "quiet.node_error"),
   ("workflow_received", mkH "quiet.workflow_received"),
   ("workflow_error", mkH "quiet.workflow_error")]

/-- `prettyLogHandlers` of src/unnamed/part_013 lines 153-219. -/
def prettyLogHandlers : List (String × Handler) :=
  [("run_error", mkH "pretty.run_error"),
   ("run_warning", mkH "pretty.run_warning"),
   ("run_complete", mkH "pretty.run_complete"),
   ("run_start", mkH "pretty.run_start"),
   ("stream_output", mkH "pretty.stream_output"),
   ("node_error", mkH "pretty.node_error"),
   ("workflow_received", mkH "pretty.workflow_received"),
   ("workflow_error", mkH "pretty.workflow_error")]

/-- The event kinds of the part_013 protocol table, i.e. the keys shared
by all three profiles above, in source order. -/
def eventTypes13 : List String :=
  ["run_error", "run_warning", "run_complete", "run_start",
   "stream_output", "node_error", "workflow_received", "workflow_error"]

/-- First-match association-list lookup (JavaScript property access on an
object literal; keys are unique in all the tables used here). -/
def lookupA {α : Type} : List (String × α) → String → Option α
  | [], _ => none
  | p :: t, k => if p.1 = k then some p.2 else lookupA t k

/-- `handlers[eventType] || baseHandlers[eventType]` (src/unnamed/part_013
line 319): a caller override entry may be absent or explicitly
null/undefined (`some none`), in which case the profile default applies. -/
def resolveHandler (ov : List (String × Option Handler))
    (base : List (String × Handler)) (k : String) : Option Handler :=
  match lookupA ov k with
  | some (some h) => some h
  | _ => lookupA base k

/-- The truthiness test `if (handlers.run_error)` on the caller override
table (src/unnamed/part_013 line 439). -/
def lookupOverride (ov : List (String × Option Handler)) (k : String) : Option Handler :=
  match lookupA ov k with
  | some (some h) => some h
  | _ => none

/-- The wrapper installed for one resolved handler: terminal events get
the disconnecting wrapper, everything else the plain `try/catch` wrapper
(src/unnamed/part_013 lines 322-350 and 370-396). -/
def mkListener (custom : Bool) (k : String) (h : Handler) : Listener :=
  if isTerminal k then Listener.wrappedTerminal custom h
  else Listener.wrappedPlain custom h

/-- Options of `runWorkflow` (src/unnamed/part_013 lines 224-241):
caller handler overrides and the two profile-selection flags. -/
structure WorkflowRunnerOptions where
  handlers : List (String × Option Handler) := []
  prettyLogs : Bool := false
  verbose : Bool := false

/-- Profile selection of src/unnamed/part_013 lines 274-282: `prettyLogs`
wins, then `verbose`, else the quiet profile. -/
def chooseBase (o : WorkflowRunnerOptions) : List (String × Handler) :=
  if o.prettyLogs then prettyLogHandlers
  else if o.verbose then defaultHandlers
  else quietHandlers

/-- First loop of the `try` block (lines 290-299): remove the existing
listeners of every event type of the base profile. -/
def removeFold (keys : List String) (s : SocketState) : SocketState :=
  keys.foldl (fun st k => removeAllListeners k st) s

/-- One step of the registration loop (lines 318-358): resolve
override-or-default and install the wrapped listener. -/
def registerStep (ov : List (String × Option Handler)) (base : List (String × Handler))
    (st : SocketState) (k : String) : SocketState :=
  match resolveHandler ov base k with
  | some h => addListener k (mkListener false k h) st
  | none => st

/-- The registration loop over the base profile's event types. -/
def registerFold (ov : List (String × Option Handler)) (base : List (String × Handler))
    (keys : List String) (s : SocketState) : SocketState :=
  keys.foldl (registerStep ov base) s

/-- One step of the custom-handler loop (lines 361-404): a caller override
whose key is not among the base profile's event types is registered
verbatim, after removing any existing listener for that key. -/
def customStep (eventTypes : List String) (st : SocketState)
    (p : String × Option Handler) : SocketState :=
  match p.2 with
  | some h =>
    if p.1 ∈ eventTypes then st
    else addListener p.1 (mkListener true p.1 h) (removeAllListeners p.1 st)
  | none => st

/-- The custom-handler loop over the caller's override table. -/
def customFold (eventTypes : List String) (ov : List (String × Option Handler))
    (s : SocketState) : SocketState :=
  ov.foldl (customStep eventTypes) s

/-- The whole listener-installation phase of `runWorkflow`
(src/unnamed/part_013 lines 284-404). -/
def setupListeners (ov : List (String × Option Handler))
    (base : List (String × Handler)) (s : SocketState) : SocketState :=
  customFold (base.map Prod.fst) ov
    (registerFold ov base (base.map Prod.fst)
      (removeFold (base.map Prod.fst) s))

/-- The `run_workflow` payload (src/unnamed/part_013 lines 407-411):
`{ flowId: workflowId, token: authToken, input: input || {} }`. -/
def runPayload (workflowId authToken : String) (input : Value) : Value :=
  Value.obj [("flowId", Value.str workflowId),
             ("token", Value.str authToken),
             ("input", if truthy input then input else Value.obj [])]

/-- An exception escaping `runWorkflow`: either a `WorkflowError` thrown
by `runWorkflow` itself, or an arbitrary error re-raised from a caller
override invoked in the catch branch. -/
inductive ThrownError where
  | workflowError (msg : String)
  | jsError (msg : String)

/-- The observable result of one `runWorkflow` call: the state of the
socket object afterwards (`none` iff the socket argument was null) and
the exception that escaped, if any. -/
structure RunResult where
  socket : Option SocketState
  thrown : Option ThrownError

/-- The tail of `runWorkflow` after listener installation
(src/unnamed/part_013 lines 406-450): emit `run_workflow`; if emission
throws, the caller's `run_error` override is invoked directly with a
synthesized payload when present (an exception it raises escapes
unwrapped), else a `WorkflowError` wrapping the cause is raised. -/
def finishRun (workflowId authToken : String) (input : Value)
    (options : WorkflowRunnerOptions) (s3 : SocketState) : RunResult :=
  match s3.emitError with
  | some m =>
    match lookupOverride options.handlers "run_error" with
    | some h =>
      let s4 := { s3 with invoked := s3.invoked ++ [(h.hid, "run_error")] }
      match h.run (Value.obj [("message", Value.str m), ("stack", Value.undef)]) with
      | HandlerOutcome.ok => ⟨some s4, none⟩
      | HandlerOutcome.throws em => ⟨some s4, some (ThrownError.jsError em)⟩
    | none =>
      ⟨some s3, some (ThrownError.workflowError "Failed to start workflow execution")⟩
  | none =>
    ⟨some (emitEvent "run_workflow" (runPayload workflowId authToken input) s3), none⟩

/-- `runWorkflow` from src/unnamed/part_013 lines 252-451: validate the
three required arguments, select the base profile, remove and reinstall
the listeners (terminal events get the disconnecting wrapper), then emit
`run_workflow` (see `finishRun`). -/
def runWorkflow (socket : Option SocketState) (workflowId authToken : String)
    (input : Value) (options : WorkflowRunnerOptions) : RunResult :=
  match socket with
  | none =>
    ⟨none, some (ThrownError.workflowError "Socket connection is required to run a workflow")⟩
  | some s0 =>
    if workflowId = "" then
      ⟨some s0, some (ThrownError.workflowError "Workflow ID is required")⟩
    else if authToken = "" then
      ⟨some s0, some (ThrownError.workflowError "Authentication token is required")⟩
    else
      finishRun workflowId authToken input options
        (setupListeners options.handlers (chooseBase options) s0)

/-- A freshly connected socket with no listeners, as produced by
`connectSocket` right before `runWorkflow` is called on it. -/
def freshSocket : SocketState :=
  { connected := true, emitError := none, listeners := [], emitted := [],
    disconnectCalls := 0, invoked := [], errorLog := [] }

/-- A connected socket whose transport `emit` raises `Error("boom")`. -/
def brokenSocket : SocketState :=
  { freshSocket with emitError := some "boom" }

/-! ## Basic lemmas about the listener table -/

theorem keyedListeners_removeKey_self (k : String) (l : List (String × Listener)) :
    keyedListeners k (removeKey k l) = [] := by
  induction l with
  | nil => rfl
  | cons a t ih =>
    by_cases h : a.1 = k
    · simp [removeKey, h, ih]
    · simp [removeKey, keyedListeners, h, ih]

theorem keyedListeners_removeKey_ne (k kr : String) (hne : k ≠ kr)
    (l : List (String × Listener)) :
    keyedListeners k (removeKey kr l) = keyedListeners k l := by
  induction l with
  | nil => rfl
  | cons a t ih =>
    by_cases h : a.1 = kr
    · have hak : ¬ a.1 = k := by
        intro hc
        exact hne (by rw [← hc]; exact h)
      rw [removeKey, if_pos h, ih, keyedListeners, if_neg hak]
    · rw [removeKey, if_neg h, keyedListeners, keyedListeners]
      by_cases hk : a.1 = k
      · rw [if_pos hk, if_pos hk, ih]
      · rw [if_neg hk, if_neg hk, ih]

theorem keyedListeners_nil_removeKey (k kr : String) (l : List (String × Listener))
    (h : keyedListeners k l = []) : keyedListeners k (removeKey kr l) = [] := by
  by_cases hkk : k = kr
  · subst hkk; exact keyedListeners_removeKey_self k l
  · rw [keyedListeners_removeKey_ne k kr hkk l]; exact h

theorem keyedListeners_append_self (k : String) (x : Listener)
    (l : List (String × Listener)) :
    keyedListeners k (l ++ [(k, x)]) = keyedListeners k l ++ [(k, x)] := by
  induction l with
  | nil => simp [keyedListeners]
  | cons a t ih =>
    by_cases h : a.1 = k
    · simp [keyedListeners, h, ih]
    · simp [keyedListeners, h, ih]

theorem keyedListeners_append_ne (k ka : String) (hne : ka ≠ k) (x : Listener)
    (l : List (String × Listener)) :
    keyedListeners k (l ++ [(ka, x)]) = keyedListeners k l := by
  induction l with
  | nil => simp [keyedListeners, hne]
  | cons a t ih =>
    by_cases h : a.1 = k
    · simp [keyedListeners, h, ih]
    · simp [keyedListeners, h, ih]

theorem mem_keyedListeners (k : String) (p : String × Listener) :
    ∀ l : List (String × Listener), p ∈ keyedListeners k l → p ∈ l ∧ p.1 = k := by
  intro l
  induction l with
  | nil => intro hp; cases hp
  | cons a t ih =>
    intro hp
    by_cases h : a.1 = k
    · rw [keyedListeners, if_pos h] at hp
      cases hp with
      | head => exact ⟨List.mem_cons_self _ _, h⟩
      | tail _ hp =>
        rcases ih hp with ⟨h1, h2⟩
        exact ⟨List.mem_cons_of_mem a h1, h2⟩
    · rw [keyedListeners, if_neg h] at hp
      rcases ih hp with ⟨h1, h2⟩
      exact ⟨List.mem_cons_of_mem a h1, h2⟩

theorem mem_removeKey (k : String) (p : String × Listener) :
    ∀ l : List (String × Listener), p ∈ removeKey k l → p ∈ l := by
  intro l
  induction l with
  | nil => intro hp; cases hp
  | cons a t ih =>
    intro hp
    by_cases h : a.1 = k
    · rw [removeKey, if_pos h] at hp
      exact List.mem_cons_of_mem a (ih hp)
    · rw [removeKey, if_neg h] at hp
      cases hp with
      | head => exact List.mem_cons_self _ _
      | tail _ hp => exact List.mem_cons_of_mem a (ih hp)

/-! ## The installation phase only touches the listener table -/

theorem removeFold_eq (keys : List String) (s : SocketState) :
    ∃ l, removeFold keys s = { s with listeners := l } := by
  induction keys generalizing s with
  | nil => exact ⟨s.listeners, rfl⟩
  | cons k t ih =>
    obtain ⟨l, hl⟩ := ih (removeAllListeners k s)
    exact ⟨l, by simpa [removeFold, removeAllListeners, List.foldl_cons] using hl⟩

theorem registerStep_eq (ov : List (String × Option Handler))
    (base : List (String × Handler)) (s : SocketState) (k : String) :
    ∃ l, registerStep ov base s k = { s with listeners := l } := by
  unfold registerStep
  cases hr : resolveHandler ov base k with
  | none => exact ⟨s.listeners, rfl⟩
  | some h => exact ⟨s.listeners ++ [(k, mkListener false k h)], rfl⟩

theorem registerFold_eq (ov : List (String × Option Handler))
    (base : List (String × Handler)) (keys : List String) (s : SocketState) :
    ∃ l, registerFold ov base keys s = { s with listeners := l } := by
  induction keys generalizing s with
  | nil => exact ⟨s.listeners, rfl⟩
  | cons k t ih =>
    obtain ⟨l1, hl1⟩ := registerStep_eq ov base s k
    obtain ⟨l2, hl2⟩ := ih (registerStep ov base s k)
    refine ⟨l2, ?_⟩
    rw [registerFold, List.foldl_cons, ← registerFold]
    rw [hl2, hl1]

theorem customStep_eq (eventTypes : List String) (s : SocketState)
    (p : String × Option Handler) :
    ∃ l, customStep eventTypes s p = { s with listeners := l } := by
  rcases hp : p.2 with _ | h
  · exact ⟨s.listeners, by simp [customStep, hp]⟩
  · by_cases hm : p.1 ∈ eventTypes
    · exact ⟨s.listeners, by simp [customStep, hp, hm]⟩
    · refine ⟨removeKey p.1 s.listeners ++ [(p.1, mkListener true p.1 h)], ?_⟩
      simp [customStep, hp, hm, addListener, removeAllListeners]

theorem customFold_eq (eventTypes : List String) (ov : List (String × Option Handler))
    (s : SocketState) :
    ∃ l, customFold eventTypes ov s = { s with listeners := l } := by
  induction ov generalizing s with
  | nil => exact ⟨s.listeners, rfl⟩
  | cons p t ih =>
    obtain ⟨l1, hl1⟩ := customStep_eq eventTypes s p
    obtain ⟨l2, hl2⟩ := ih (customStep eventTypes s p)
    refine ⟨l2, ?_⟩
    rw [customFold, List.foldl_cons, ← customFold]
    rw [hl2, hl1]

theorem setupListeners_eq (ov : List (String × Option Handler))
    (base : List (String × Handler)) (s : SocketState) :
    ∃ l, setupListeners ov base s = { s with listeners := l } := by
  obtain ⟨l1, h1⟩ := removeFold_eq (base.map Prod.fst) s
  obtain ⟨l2, h2⟩ := registerFold_eq ov base (base.map Prod.fst)
      (removeFold (base.map Prod.fst) s)
  obtain ⟨l3, h3⟩ := customFold_eq (base.map Prod.fst) ov
      (registerFold ov base (base.map Prod.fst) (removeFold (base.map Prod.fst) s))
  refine ⟨l3, ?_⟩
  rw [setupListeners, h3, h2, h1]

/-! ## What each installation loop does to the listeners of one event kind -/

theorem removeFold_keyed_nil (k : String) (keys : List String) :
    ∀ s : SocketState, keyedListeners k s.listeners = [] →
      keyedListeners k (removeFold keys s).listeners = [] := by
  induction keys with
  | nil => intro s h; exact h
  | cons kr t ih =>
    intro s h
    rw [removeFold, List.foldl_cons, ← removeFold]
    exact ih _ (keyedListeners_nil_removeKey k kr _ h)

theorem removeFold_keyed_mem (k : String) (keys : List String) :
    ∀ s : SocketState, k ∈ keys →
      keyedListeners k (removeFold keys s).listeners = [] := by
  induction keys with
  | nil => intro s h; cases h
  | cons kr t ih =>
    intro s h
    rw [removeFold, List.foldl_cons, ← removeFold]
    by_cases hk : k = kr
    · subst hk
      exact removeFold_keyed_nil k t _
        (by rw [removeAllListeners]; exact keyedListeners_removeKey_self k _)
    · have hmem : k ∈ t := by
        cases h with
        | head => exact absurd rfl hk
        | tail _ h => exact h
      exact ih _ hmem

theorem registerStep_keyed_ne (ov : List (String × Option Handler))
    (base : List (String × Handler)) (k kr : String) (hne : kr ≠ k)
    (s : SocketState) :
    keyedListeners k (registerStep ov base s kr).listeners =
      keyedListeners k s.listeners := by
  unfold registerStep
  cases hr : resolveHandler ov base kr with
  | none => rfl
  | some h => exact keyedListeners_append_ne k kr hne _ _

theorem registerFold_keyed_not_mem (ov : List (String × Option Handler))
    (base : List (String × Handler)) (k : String) (keys : List String) :
    ∀ s : SocketState, k ∉ keys →
      keyedListeners k (registerFold ov base keys s).listeners =
        keyedListeners k s.listeners := by
  induction keys with
  | nil => intro s _; rfl
  | cons kr t ih =>
    intro s h
    have hne : kr ≠ k := fun hc => h (hc ▸ List.mem_cons_self kr t)
    have hnt : k ∉ t := fun hc => h (List.mem_cons_of_mem kr hc)
    rw [registerFold, List.foldl_cons, ← registerFold, ih _ hnt,
      registerStep_keyed_ne ov base k kr hne]

theorem registerFold_keyed_mem (ov : List (String × Option Handler))
    (base : List (String × Handler)) (k : String) (hk : Handler) (keys : List String) :
    ∀ s : SocketState, keys.Nodup → k ∈ keys →
      resolveHandler ov base k = some hk →
      keyedListeners k (registerFold ov base keys s).listeners =
        keyedListeners k s.listeners ++ [(k, mkListener false k hk)] := by
  induction keys with
  | nil => intro s _ h; cases h
  | cons kr t ih =>
    intro s hnd hmem hres
    rw [registerFold, List.foldl_cons, ← registerFold]
    rcases List.nodup_cons.mp hnd with ⟨hkt, hndt⟩
    by_cases hk' : k = kr
    · subst hk'
      rw [registerFold_keyed_not_mem ov base k t _ hkt]
      unfold registerStep
      rw [hres]
      exact keyedListeners_append_self k _ _
    · have hmemt : k ∈ t := by
        cases hmem with
        | head => exact absurd rfl hk'
        | tail _ h => exact h
      rw [ih _ hndt hmemt hres, registerStep_keyed_ne ov base k kr
        (fun hc => hk' hc.symm)]

theorem customFold_keyed_mem (eventTypes : List String) (k : String)
    (hk : k ∈ eventTypes) (ov : List (String × Option Handler)) :
    ∀ s : SocketState,
      keyedListeners k (customFold eventTypes ov s).listeners =
        keyedListeners k s.listeners := by
  induction ov with
  | nil => intro s; rfl
  | cons p t ih =>
    intro s
    rw [customFold, List.foldl_cons, ← customFold, ih]
    rcases hp : p.2 with _ | h
    · simp [customStep, hp]
    · by_cases hm : p.1 ∈ eventTypes
      · simp [customStep, hp, hm]
      · have hne : p.1 ≠ k := fun hc => hm (hc ▸ hk)
        simp only [customStep, hp, if_neg hm, addListener, removeAllListeners]
        rw [keyedListeners_append_ne k p.1 hne, keyedListeners_removeKey_ne k p.1
          (fun hc => hne hc.symm)]

/-- After the whole installation phase, the listener table for an event
kind of the base profile is exactly one wrapped copy of the resolved
handler, whatever listeners were present before. -/
theorem setupListeners_keyed (ov : List (String × Option Handler))
    (base : List (String × Handler)) (k : String) (hk : Handler)
    (hnd : (base.map Prod.fst).Nodup) (hmem : k ∈ base.map Prod.fst)
    (hres : resolveHandler ov base k = some hk) (s : SocketState) :
    listenersFor k (setupListeners ov base s) = [(k, mkListener false k hk)] := by
  rw [listenersFor, setupListeners, customFold_keyed_mem _ k hmem,
    registerFold_keyed_mem ov base k hk _ _ hnd hmem hres,
    removeFold_keyed_mem k _ _ hmem]
  rfl

/-! ## Facts about the three profiles and profile selection -/

theorem chooseBase_cases (o : WorkflowRunnerOptions) :
    chooseBase o = prettyLogHandlers ∨ chooseBase o = defaultHandlers ∨
      chooseBase o = quietHandlers := by
  unfold chooseBase
  by_cases h1 : o.prettyLogs = true
  · rw [if_pos h1]; exact Or.inl rfl
  · rw [if_neg h1]
    by_cases h2 : o.verbose = true
    · rw [if_pos h2]; exact Or.inr (Or.inl rfl)
    · rw [if_neg h2]; exact Or.inr (Or.inr rfl)

theorem chooseBase_keys (o : WorkflowRunnerOptions) :
    (chooseBase o).map Prod.fst = eventTypes13 := by
  rcases chooseBase_cases o with h | h | h <;> rw [h] <;> rfl

theorem eventTypes13_nodup : eventTypes13.Nodup := by decide

theorem lookupA_chooseBase_isSome (o : WorkflowRunnerOptions) (k : String)
    (hk : k ∈ eventTypes13) : (lookupA (chooseBase o) k).isSome = true := by
  simp only [eventTypes13, List.mem_cons, List.not_mem_nil, or_false] at hk
  rcases chooseBase_cases o with h | h | h <;> rw [h] <;>
    rcases hk with rfl | rfl | rfl | rfl | rfl | rfl | rfl | rfl <;> rfl

theorem resolveHandler_isSome (ov : List (String × Option Handler))
    (base : List (String × Handler)) (k : String)
    (hb : (lookupA base k).isSome = true) :
    ∃ h, resolveHandler ov base k = some h := by
  unfold resolveHandler
  rcases hov : lookupA ov k with _ | x
  · exact Option.isSome_iff_exists.mp hb
  · rcases x with _ | h
    · exact Option.isSome_iff_exists.mp hb
    · exact ⟨h, rfl⟩

theorem resolveHandler_chooseBase (o : WorkflowRunnerOptions)
    (ov : List (String × Option Handler)) (k : String) (hk : k ∈ eventTypes13) :
    ∃ h, resolveHandler ov (chooseBase o) k = some h :=
  resolveHandler_isSome ov (chooseBase o) k (lookupA_chooseBase_isSome o k hk)

theorem isTerminal_iff (k : String) :
    isTerminal k = true ↔
      k = "run_complete" ∨ k = "run_error" ∨ k = "workflow_error" := by
  unfold isTerminal
  simp [Bool.or_eq_true, decide_eq_true_eq, or_assoc]

theorem isTerminal_mem_eventTypes13 (k : String) (hk : isTerminal k = true) :
    k ∈ eventTypes13 := by
  rcases (isTerminal_iff k).mp hk with rfl | rfl | rfl <;> decide

/-! ## Dispatch lemmas -/

theorem dispatchEvent_single (k : String) (l : Listener) (data : Value) (s : SocketState)
    (h : listenersFor k s = [(k, l)]) :
    dispatchEvent k data s = dispatchOne k l data s := by
  rw [dispatchEvent, h]
  rfl

theorem dispatchOne_terminal_effects (k : String) (c : Bool) (h : Handler) (data : Value)
    (s : SocketState) (hc : s.connected = true) :
    (dispatchOne k (Listener.wrappedTerminal c h) data s).disconnectCalls
        = s.disconnectCalls + 1 ∧
    (dispatchOne k (Listener.wrappedTerminal c h) data s).connected = false ∧
    (dispatchOne k (Listener.wrappedTerminal c h) data s).invoked
        = s.invoked ++ [(h.hid, k)] := by
  cases hr : h.run data <;> simp [dispatchOne, hr, safeDisconnect, hc]

theorem dispatchOne_plain_effects (k : String) (c : Bool) (h : Handler) (data : Value)
    (s : SocketState) :
    (dispatchOne k (Listener.wrappedPlain c h) data s).disconnectCalls
        = s.disconnectCalls ∧
    (dispatchOne k (Listener.wrappedPlain c h) data s).connected = s.connected ∧
    (dispatchOne k (Listener.wrappedPlain c h) data s).invoked
        = s.invoked ++ [(h.hid, k)] := by
  cases hr : h.run data <;> simp [dispatchOne, hr]

theorem dispatchOne_plain_throws (k : String) (c : Bool) (h : Handler) (data : Value)
    (s : SocketState) (m : String) (hr : h.run data = HandlerOutcome.throws m) :
    dispatchOne k (Listener.wrappedPlain c h) data s =
      { s with invoked := s.invoked ++ [(h.hid, k)],
               errorLog := s.errorLog ++ [handlerErrorMsg c k m] } := by
  simp [dispatchOne, hr]

theorem dispatchOne_listeners (k : String) (l : Listener) (data : Value) (s : SocketState) :
    (dispatchOne k l data s).listeners = s.listeners := by
  cases l with
  | wrappedTerminal c h =>
    cases hr : h.run data <;> simp [dispatchOne, hr, safeDisconnect] <;> split <;> rfl
  | wrappedPlain c h =>
    cases hr : h.run data <;> simp [dispatchOne, hr]

theorem dispatchFold_listeners (k : String) (data : Value)
    (ls : List (String × Listener)) :
    ∀ s : SocketState,
      (ls.foldl (fun st p => dispatchOne k p.2 data st) s).listeners = s.listeners := by
  induction ls with
  | nil => intro s; rfl
  | cons p t ih =>
    intro s
    rw [List.foldl_cons, ih _, dispatchOne_listeners]

theorem dispatchEvent_listeners (k : String) (data : Value) (s : SocketState) :
    (dispatchEvent k data s).listeners = s.listeners := by
  rw [dispatchEvent]
  exact dispatchFold_listeners k data _ s

/-! ## Only terminal events ever carry the disconnecting wrapper -/

/-- Invariant of the tables built by `runWorkflow`: a disconnecting
wrapper is only ever installed for one of the three terminal events. -/
def wrapOK (l : List (String × Listener)) : Prop :=
  ∀ p ∈ l, ∀ c h, p.2 = Listener.wrappedTerminal c h → isTerminal p.1 = true

theorem wrapOK_nil : wrapOK [] := by
  intro p hp
  cases hp

theorem wrapOK_removeKey (k : String) (l : List (String × Listener)) (hl : wrapOK l) :
    wrapOK (removeKey k l) :=
  fun p hp => hl p (mem_removeKey k p l hp)

theorem wrapOK_append_mk (custom : Bool) (k : String) (hk : Handler)
    (l : List (String × Listener)) (hl : wrapOK l) :
    wrapOK (l ++ [(k, mkListener custom k hk)]) := by
  intro p hp c h hterm
  rcases List.mem_append.mp hp with hp | hp
  · exact hl p hp c h hterm
  · rcases List.mem_singleton.mp hp with rfl
    by_cases ht : isTerminal k = true
    · exact ht
    · exfalso
      have : mkListener custom k hk = Listener.wrappedPlain custom hk := by
        unfold mkListener
        rw [if_neg ht]
      rw [this] at hterm
      cases hterm

theorem wrapOK_removeFold (keys : List String) :
    ∀ s : SocketState, wrapOK s.listeners → wrapOK (removeFold keys s).listeners := by
  induction keys with
  | nil => intro s h; exact h
  | cons k t ih =>
    intro s h
    rw [removeFold, List.foldl_cons, ← removeFold]
    exact ih _ (wrapOK_removeKey k _ h)

theorem wrapOK_registerStep (ov : List (String × Option Handler))
    (base : List (String × Handler)) (s : SocketState) (k : String)
    (h : wrapOK s.listeners) : wrapOK (registerStep ov base s k).listeners := by
  unfold registerStep
  rcases hr : resolveHandler ov base k with _ | hk
  · exact h
  · exact wrapOK_append_mk false k hk _ h

theorem wrapOK_registerFold (ov : List (String × Option Handler))
    (base : List (String × Handler)) (keys : List String) :
    ∀ s : SocketState, wrapOK s.listeners →
      wrapOK (registerFold ov base keys s).listeners := by
  induction keys with
  | nil => intro s h; exact h
  | cons k t ih =>
    intro s h
    rw [registerFold, List.foldl_cons, ← registerFold]
    exact ih _ (wrapOK_registerStep ov base s k h)

theorem wrapOK_customStep (eventTypes : List String) (s : SocketState)
    (p : String × Option Handler) (h : wrapOK s.listeners) :
    wrapOK (customStep eventTypes s p).listeners := by
  rcases hp : p.2 with _ | hk
  · simpa [customStep, hp] using h
  · by_cases hm : p.1 ∈ eventTypes
    · simpa [customStep, hp, hm] using h
    · have hx := wrapOK_append_mk true p.1 hk _ (wrapOK_removeKey p.1 _ h)
      simpa [customStep, hp, hm, addListener, removeAllListeners] using hx

theorem wrapOK_customFold (eventTypes : List String)
    (ov : List (String × Option Handler)) :
    ∀ s : SocketState, wrapOK s.listeners →
      wrapOK (customFold eventTypes ov s).listeners := by
  induction ov with
  | nil => intro s h; exact h
  | cons p t ih =>
    intro s h
    rw [customFold, List.foldl_cons, ← customFold]
    exact ih _ (wrapOK_customStep eventTypes s p h)

theorem wrapOK_setupListeners (ov : List (String × Option Handler))
    (base : List (String × Handler)) (s : SocketState) (h : wrapOK s.listeners) :
    wrapOK (setupListeners ov base s).listeners := by
  rw [setupListeners]
  exact wrapOK_customFold _ _ _
    (wrapOK_registerFold _ _ _ _ (wrapOK_removeFold _ _ h))

/-- Dispatching an event whose listeners are all plain wrappers leaves
the connection flag and the disconnect count untouched. -/
theorem dispatchFold_no_disconnect (k : String) (data : Value)
    (ls : List (String × Listener))
    (hls : ∀ p ∈ ls, ∀ c h, p.2 = Listener.wrappedTerminal c h → False) :
    ∀ s : SocketState,
      (ls.foldl (fun st p => dispatchOne k p.2 data st) s).disconnectCalls
          = s.disconnectCalls ∧
      (ls.foldl (fun st p => dispatchOne k p.2 data st) s).connected = s.connected := by
  induction ls with
  | nil => intro s; exact ⟨rfl, rfl⟩
  | cons p t ih =>
    intro s
    have hp : ∀ c h, p.2 = Listener.wrappedTerminal c h → False :=
      hls p (List.mem_cons_self p t)
    have ht : ∀ q ∈ t, ∀ c h, q.2 = Listener.wrappedTerminal c h → False :=
      fun q hq => hls q (List.mem_cons_of_mem p hq)
    rcases hl : p.2 with ⟨c, h⟩ | ⟨c, h⟩
    · exact absurd hl (fun hc => hp c h hc)
    · rw [List.foldl_cons, hl]
      obtain ⟨h1, h2⟩ := ih ht (dispatchOne k (Listener.wrappedPlain c h) data s)
      obtain ⟨g1, g2, _⟩ := dispatchOne_plain_effects k c h data s
      exact ⟨by rw [h1, g1], by rw [h2, g2]⟩

theorem dispatchEvent_nonterminal (k : String) (data : Value) (s : SocketState)
    (hk : isTerminal k = false) (hww : wrapOK s.listeners) :
    (dispatchEvent k data s).disconnectCalls = s.disconnectCalls ∧
    (dispatchEvent k data s).connected = s.connected := by
  rw [dispatchEvent]
  refine dispatchFold_no_disconnect k data _ ?_ s
  intro p hp c h hterm
  obtain ⟨hmem, hkey⟩ := mem_keyedListeners k p s.listeners hp
  have := hww p hmem c h hterm
  rw [hkey, hk] at this
  cases this

/-! ## Characterizing the result of runWorkflow -/

theorem finishRun_socket (workflowId authToken : String) (input : Value)
    (o : WorkflowRunnerOptions) (s3 s1 : SocketState)
    (hsock : (finishRun workflowId authToken input o s3).socket = some s1) :
    s1.listeners = s3.listeners ∧ s1.connected = s3.connected := by
  unfold finishRun at hsock
  rcases hem : s3.emitError with _ | m
  · simp only [hem, Option.some.injEq] at hsock
    rw [← hsock]
    exact ⟨rfl, rfl⟩
  · rcases hov : lookupOverride o.handlers "run_error" with _ | h
    · simp only [hem, hov, Option.some.injEq] at hsock
      constructor <;> rw [← hsock]
    · rcases hr : h.run (Value.obj [("message", Value.str m), ("stack", Value.undef)])
          with _ | em
      · simp only [hem, hov, hr, Option.some.injEq] at hsock
        constructor <;> rw [← hsock]
      · simp only [hem, hov, hr, Option.some.injEq] at hsock
        constructor <;> rw [← hsock]

theorem runWorkflow_socket (s0 : SocketState) (workflowId authToken : String)
    (input : Value) (o : WorkflowRunnerOptions) (s1 : SocketState)
    (hw : ¬ workflowId = "") (ht : ¬ authToken = "")
    (hsock : (runWorkflow (some s0) workflowId authToken input o).socket = some s1) :
    s1.listeners = (setupListeners o.handlers (chooseBase o) s0).listeners ∧
    s1.connected = s0.connected := by
  simp only [runWorkflow] at hsock
  rw [if_neg hw, if_neg ht] at hsock
  obtain ⟨hl, hc⟩ := finishRun_socket workflowId authToken input o _ s1 hsock
  obtain ⟨l, hsetup⟩ := setupListeners_eq o.handlers (chooseBase o) s0
  refine ⟨hl, ?_⟩
  rw [hc, hsetup]

theorem safeDisconnect_invoked (s : SocketState) :
    (safeDisconnect s).invoked = s.invoked := by
  unfold safeDisconnect
  split <;> rfl

theorem dispatchOne_mk_invoked (custom : Bool) (k : String) (h : Handler)
    (data : Value) (s : SocketState) :
    (dispatchOne k (mkListener custom k h) data s).invoked
        = s.invoked ++ [(h.hid, k)] := by
  unfold mkListener
  by_cases hterm : isTerminal k = true
  · rw [if_pos hterm]
    cases hr : h.run data <;>
      simp [dispatchOne, hr, safeDisconnect_invoked]
  · rw [if_neg hterm]
    exact (dispatchOne_plain_effects k custom h data s).2.2

/-- The single-listener table that `runWorkflow` leaves for any event
kind of the protocol set, given the resolved handler. -/
theorem runWorkflow_keyed (s0 : SocketState) (workflowId authToken : String)
    (input : Value) (opts : WorkflowRunnerOptions) (k : String) (s1 : SocketState)
    (h : Handler) (hw : ¬ workflowId = "") (ht : ¬ authToken = "")
    (hsock : (runWorkflow (some s0) workflowId authToken input opts).socket = some s1)
    (hmem : k ∈ eventTypes13)
    (hres : resolveHandler opts.handlers (chooseBase opts) k = some h) :
    listenersFor k s1 = [(k, mkListener false k h)] := by
  obtain ⟨hl, _⟩ := runWorkflow_socket s0 workflowId authToken input opts s1 hw ht hsock
  have hnd : ((chooseBase opts).map Prod.fst).Nodup := by
    rw [chooseBase_keys]
    exact eventTypes13_nodup
  have hmem' : k ∈ (chooseBase opts).map Prod.fst := by
    rw [chooseBase_keys]
    exact hmem
  have hx := setupListeners_keyed opts.handlers (chooseBase opts) k h hnd hmem' hres s0
  rw [listenersFor] at hx ⊢
  rw [hl]
  exact hx

/-- C1: for every terminal event kind (`run_complete`, `run_error`,
`workflow_error`), dispatching that event to the table registered by
`runWorkflow` on a connected socket calls the socket's `disconnect()`
exactly once — whatever handler was resolved (override or profile
default) and whether it returns normally or throws. -/
theorem runWorkflow_terminal_disconnects_once
    (s0 : SocketState) (workflowId authToken : String) (input : Value)
    (opts : WorkflowRunnerOptions) (k : String) (data : Value) (s1 : SocketState)
    (hw : ¬ workflowId = "") (ht : ¬ authToken = "")
    (hsock : (runWorkflow (some s0) workflowId authToken input opts).socket = some s1)
    (hk : isTerminal k = true) (hc : s1.connected = true) :
    (dispatchEvent k data s1).disconnectCalls = s1.disconnectCalls + 1 ∧
    (dispatchEvent k data s1).connected = false := by
  have hmem : k ∈ eventTypes13 := isTerminal_mem_eventTypes13 k hk
  obtain ⟨h, hres⟩ := resolveHandler_chooseBase opts opts.handlers k hmem
  have hsingle := runWorkflow_keyed s0 workflowId authToken input opts k s1 h
    hw ht hsock hmem hres
  have hterm : mkListener false k h = Listener.wrappedTerminal false h := by
    unfold mkListener
    rw [if_pos hk]
  rw [hterm] at hsingle
  rw [dispatchEvent_single k _ data s1 hsingle]
  obtain ⟨h1, h2, _⟩ := dispatchOne_terminal_effects k false h data s1 hc
  exact ⟨h1, h2⟩

/-- C1 witness: a concrete fresh socket, a valid run, and a
`run_complete` dispatch that disconnects exactly once. -/
theorem runWorkflow_terminal_disconnects_once_witness :
    ∃ s1, (runWorkflow (some freshSocket) "wf1" "secret" Value.null {}).socket = some s1 ∧
      (dispatchEvent "run_complete" Value.null s1).disconnectCalls
          = s1.disconnectCalls + 1 ∧
      (dispatchEvent "run_complete" Value.null s1).connected = false := by
  refine ⟨_, rfl, ?_⟩
  exact runWorkflow_terminal_disconnects_once freshSocket "wf1" "secret" Value.null {}
    "run_complete" Value.null _ (by decide) (by decide) rfl rfl rfl

/-- C2: for every event kind outside the terminal set, dispatching that
event to the table registered by `runWorkflow` on a fresh socket never
calls `disconnect()` and leaves the connection flag untouched. -/
theorem runWorkflow_nonterminal_no_disconnect
    (s0 : SocketState) (workflowId authToken : String) (input : Value)
    (opts : WorkflowRunnerOptions) (k : String) (data : Value) (s1 : SocketState)
    (hfresh : s0.listeners = [])
    (hw : ¬ workflowId = "") (ht : ¬ authToken = "")
    (hsock : (runWorkflow (some s0) workflowId authToken input opts).socket = some s1)
    (hk : isTerminal k = false) :
    (dispatchEvent k data s1).disconnectCalls = s1.disconnectCalls ∧
    (dispatchEvent k data s1).connected = s1.connected := by
  obtain ⟨hl, _⟩ := runWorkflow_socket s0 workflowId authToken input opts s1 hw ht hsock
  have hww : wrapOK s1.listeners := by
    rw [hl]
    apply wrapOK_setupListeners
    rw [hfresh]
    exact wrapOK_nil
  exact dispatchEvent_nonterminal k data s1 hk hww

/-- C2 witness: dispatching `stream_output` (and even an unknown custom
kind) after a concrete valid run never disconnects. -/
theorem runWorkflow_nonterminal_no_disconnect_witness :
    ∃ s1, (runWorkflow (some freshSocket) "wf1" "secret" Value.null {}).socket = some s1 ∧
      (dispatchEvent "stream_output" Value.null s1).disconnectCalls
          = s1.disconnectCalls ∧
      (dispatchEvent "stream_output" Value.null s1).connected = s1.connected := by
  refine ⟨_, rfl, ?_⟩
  exact runWorkflow_nonterminal_no_disconnect freshSocket "wf1" "secret" Value.null {}
    "stream_output" Value.null _ rfl (by decide) (by decide) rfl rfl

/-- C3: the three validation checks of `runWorkflow` fire synchronously,
in order (null socket, empty workflow id, empty token), before any other
effect: in each failure case the socket object is returned exactly as it
was passed in — nothing emitted, no listeners touched. -/
theorem runWorkflow_validation (s : SocketState) (workflowId authToken : String)
    (input : Value) (opts : WorkflowRunnerOptions) :
    (runWorkflow none workflowId authToken input opts
        = ⟨none, some (ThrownError.workflowError
            "Socket connection is required to run a workflow")⟩) ∧
    (workflowId = "" → runWorkflow (some s) workflowId authToken input opts
        = ⟨some s, some (ThrownError.workflowError "Workflow ID is required")⟩) ∧
    (¬ workflowId = "" → authToken = "" →
      runWorkflow (some s) workflowId authToken input opts
        = ⟨some s, some (ThrownError.workflowError
            "Authentication token is required")⟩) := by
  refine ⟨rfl, ?_, ?_⟩
  · intro hw
    subst hw
    rfl
  · intro hw ht
    subst ht
    simp only [runWorkflow]
    rw [if_neg hw, if_pos trivial]

/-- C3 witness: the three failure cases at concrete inputs, each leaving
the socket untouched. -/
theorem runWorkflow_validation_witness :
    (runWorkflow none "wf1" "secret" Value.null {}).thrown
        = some (ThrownError.workflowError
            "Socket connection is required to run a workflow") ∧
    runWorkflow (some freshSocket) "" "secret" Value.null {}
        = ⟨some freshSocket, some (ThrownError.workflowError "Workflow ID is required")⟩ ∧
    runWorkflow (some freshSocket) "wf1" "" Value.null {}
        = ⟨some freshSocket, some (ThrownError.workflowError
            "Authentication token is required")⟩ := by
  refine ⟨?_, ?_, ?_⟩
  · rw [(runWorkflow_validation freshSocket "wf1" "secret" Value.null {}).1]
  · exact (runWorkflow_validation freshSocket "" "secret" Value.null {}).2.1 rfl
  · exact (runWorkflow_validation freshSocket "wf1" "" Value.null {}).2.2 (by decide) rfl

/-- C5: for every event kind of the protocol set, after `runWorkflow`
the table holds exactly one listener for that kind — the wrapped resolved
handler (the caller override when supplied, else the profile default) —
whatever listeners existed before, and dispatching the event invokes that
handler exactly once; when an override is supplied the resolved handler
is the override, never the profile default. -/
theorem runWorkflow_override_wins
    (s0 : SocketState) (workflowId authToken : String) (input : Value)
    (opts : WorkflowRunnerOptions) (k : String) (data : Value) (s1 : SocketState)
    (h : Handler)
    (hw : ¬ workflowId = "") (ht : ¬ authToken = "")
    (hsock : (runWorkflow (some s0) workflowId authToken input opts).socket = some s1)
    (hmem : k ∈ eventTypes13)
    (hres : resolveHandler opts.handlers (chooseBase opts) k = some h) :
    listenersFor k s1 = [(k, mkListener false k h)] ∧
    (dispatchEvent k data s1).invoked = s1.invoked ++ [(h.hid, k)] ∧
    (∀ hov, lookupOverride opts.handlers k = some hov → h = hov) := by
  have hsingle := runWorkflow_keyed s0 workflowId authToken input opts k s1 h
    hw ht hsock hmem hres
  refine ⟨hsingle, ?_, ?_⟩
  · rw [dispatchEvent_single k _ data s1 hsingle]
    exact dispatchOne_mk_invoked false k h data s1
  · intro hov hlk
    unfold resolveHandler at hres
    unfold lookupOverride at hlk
    rcases hla : lookupA opts.handlers k with _ | x
    · simp only [hla] at hlk
      exact Option.noConfusion hlk
    · rcases x with _ | h2
      · simp only [hla] at hlk
        exact Option.noConfusion hlk
      · simp only [hla] at hlk hres
        exact Option.some.inj (hres.symm.trans hlk)

/-- C5 witness: a custom `run_complete` override on a concrete run is
the only listener for that kind and the only handler invoked. -/
theorem runWorkflow_override_wins_witness :
    ∃ s1, (runWorkflow (some freshSocket) "wf1" "secret" Value.null
        { handlers := [("run_complete", some (mkH "custom.run_complete"))] }).socket
          = some s1 ∧
      listenersFor "run_complete" s1
          = [("run_complete", mkListener false "run_complete" (mkH "custom.run_complete"))] ∧
      (dispatchEvent "run_complete" Value.null s1).invoked
          = s1.invoked ++ [("custom.run_complete", "run_complete")] ∧
      (∀ hov, lookupOverride [("run_complete", some (mkH "custom.run_complete"))]
          "run_complete" = some hov → mkH "custom.run_complete" = hov) := by
  refine ⟨_, rfl, ?_⟩
  exact runWorkflow_override_wins freshSocket "wf1" "secret" Value.null
    { handlers := [("run_complete", some (mkH "custom.run_complete"))] }
    "run_complete" Value.null _ (mkH "custom.run_complete")
    (by decide) (by decide) rfl (by decide) rfl

/-- C4: a handler that throws during dispatch is caught and logged with
its event kind, the dispatch completes, and a later terminal event is
still delivered to its own handler and still tears the connection down. -/
theorem runWorkflow_handler_exception_contained
    (s0 : SocketState) (workflowId authToken : String) (input : Value)
    (opts : WorkflowRunnerOptions) (k : String) (data data2 : Value)
    (s1 : SocketState) (h hc : Handler) (msg : String)
    (hw : ¬ workflowId = "") (ht : ¬ authToken = "")
    (hsock : (runWorkflow (some s0) workflowId authToken input opts).socket = some s1)
    (hmem : k ∈ eventTypes13) (hkt : isTerminal k = false)
    (hres : resolveHandler opts.handlers (chooseBase opts) k = some h)
    (hthrow : h.run data = HandlerOutcome.throws msg)
    (hres2 : resolveHandler opts.handlers (chooseBase opts) "run_complete" = some hc)
    (hconn : s1.connected = true) :
    (dispatchEvent k data s1).errorLog = s1.errorLog ++ [handlerErrorMsg false k msg] ∧
    (dispatchEvent k data s1).invoked = s1.invoked ++ [(h.hid, k)] ∧
    (dispatchEvent "run_complete" data2 (dispatchEvent k data s1)).invoked
        = (dispatchEvent k data s1).invoked ++ [(hc.hid, "run_complete")] ∧
    (dispatchEvent "run_complete" data2 (dispatchEvent k data s1)).disconnectCalls
        = (dispatchEvent k data s1).disconnectCalls + 1 := by
  have hsingle := runWorkflow_keyed s0 workflowId authToken input opts k s1 h
    hw ht hsock hmem hres
  have hplain : mkListener false k h = Listener.wrappedPlain false h := by
    unfold mkListener
    rw [if_neg (by rw [hkt]; exact Bool.false_ne_true)]
  rw [hplain] at hsingle
  have hs2 : dispatchEvent k data s1 =
      { s1 with invoked := s1.invoked ++ [(h.hid, k)],
                errorLog := s1.errorLog ++ [handlerErrorMsg false k msg] } := by
    rw [dispatchEvent_single k _ data s1 hsingle]
    exact dispatchOne_plain_throws k false h data s1 msg hthrow
  have hsingle2 := runWorkflow_keyed s0 workflowId authToken input opts "run_complete" s1 hc
    hw ht hsock (by decide) hres2
  have hterm2 : mkListener false "run_complete" hc = Listener.wrappedTerminal false hc := by
    have htc : isTerminal "run_complete" = true := by decide
    unfold mkListener
    rw [if_pos htc]
  rw [hterm2] at hsingle2
  have hsingle2' : listenersFor "run_complete" (dispatchEvent k data s1)
      = [("run_complete", Listener.wrappedTerminal false hc)] := by
    rw [hs2]
    exact hsingle2
  have hconn2 : (dispatchEvent k data s1).connected = true := by
    rw [hs2]
    exact hconn
  refine ⟨?_, ?_, ?_, ?_⟩
  · rw [hs2]
  · rw [hs2]
  · rw [dispatchEvent_single "run_complete" _ data2 _ hsingle2']
    exact (dispatchOne_terminal_effects "run_complete" false hc data2 _ hconn2).2.2
  · rw [dispatchEvent_single "run_complete" _ data2 _ hsingle2']
    exact (dispatchOne_terminal_effects "run_complete" false hc data2 _ hconn2).1

/-- C4 witness: a throwing `stream_output` override on a concrete run is
logged and does not prevent the later `run_complete` from disconnecting. -/
theorem runWorkflow_handler_exception_contained_witness :
    ∃ s1, (runWorkflow (some freshSocket) "wf1" "secret" Value.null
        { handlers := [("stream_output",
            some ⟨"custom.stream_output", fun _ => HandlerOutcome.throws "boom"⟩)] }).socket
          = some s1 ∧
      (dispatchEvent "stream_output" Value.null s1).errorLog
          = s1.errorLog ++ [handlerErrorMsg false "stream_output" "boom"] ∧
      (dispatchEvent "run_complete" Value.null
          (dispatchEvent "stream_output" Value.null s1)).disconnectCalls
          = (dispatchEvent "stream_output" Value.null s1).disconnectCalls + 1 := by
  refine ⟨_, rfl, ?_, ?_⟩
  all_goals
    have hx := runWorkflow_handler_exception_contained freshSocket "wf1" "secret" Value.null
      { handlers := [("stream_output",
          some ⟨"custom.stream_output", fun _ => HandlerOutcome.throws "boom"⟩)] }
      "stream_output" Value.null Value.null _
      ⟨"custom.stream_output", fun _ => HandlerOutcome.throws "boom"⟩
      (mkH "quiet.run_complete") "boom"
      (by decide) (by decide) rfl (by decide) rfl rfl rfl rfl rfl
  · exact hx.1
  · exact hx.2.2.2

/-- C10: a validated `runWorkflow` call emits exactly one `run_workflow`
event whose payload maps `workflowId` to the wire field `flowId` and the
auth token to `token` unchanged, and whose `input` field is the empty
object whenever the supplied input is falsy (`input || {}`). -/
theorem runWorkflow_payload_shape
    (s0 : SocketState) (workflowId authToken : String) (input : Value)
    (opts : WorkflowRunnerOptions)
    (hw : ¬ workflowId = "") (ht : ¬ authToken = "") (he : s0.emitError = none) :
    (runWorkflow (some s0) workflowId authToken input opts).thrown = none ∧
    ∃ s1, (runWorkflow (some s0) workflowId authToken input opts).socket = some s1 ∧
      s1.emitted = s0.emitted ++ [("run_workflow",
        Value.obj [("flowId", Value.str workflowId), ("token", Value.str authToken),
                   ("input", if truthy input then input else Value.obj [])])] ∧
      (truthy input = false → s1.emitted = s0.emitted ++ [("run_workflow",
        Value.obj [("flowId", Value.str workflowId), ("token", Value.str authToken),
                   ("input", Value.obj [])])]) := by
  obtain ⟨l, hsetup⟩ := setupListeners_eq opts.handlers (chooseBase opts) s0
  have hem3 : (setupListeners opts.handlers (chooseBase opts) s0).emitError = none := by
    rw [hsetup]
    exact he
  have hrun : runWorkflow (some s0) workflowId authToken input opts
      = ⟨some (emitEvent "run_workflow" (runPayload workflowId authToken input)
          (setupListeners opts.handlers (chooseBase opts) s0)), none⟩ := by
    simp only [runWorkflow]
    rw [if_neg hw, if_neg ht]
    unfold finishRun
    rw [hem3]
  rw [hrun]
  have hemit : (emitEvent "run_workflow" (runPayload workflowId authToken input)
      (setupListeners opts.handlers (chooseBase opts) s0)).emitted
      = s0.emitted ++ [("run_workflow",
        Value.obj [("flowId", Value.str workflowId), ("token", Value.str authToken),
                   ("input", if truthy input then input else Value.obj [])])] := by
    simp only [emitEvent, hsetup, runPayload]
  refine ⟨rfl, _, rfl, hemit, ?_⟩
  intro hfalse
  rw [hemit, hfalse]
  simp

/-- C10 witness: a concrete run with a null input emits the payload with
an empty-object `input` field. -/
theorem runWorkflow_payload_shape_witness :
    (runWorkflow (some freshSocket) "wf1" "secret" Value.null {}).thrown = none ∧
    ∃ s1, (runWorkflow (some freshSocket) "wf1" "secret" Value.null {}).socket = some s1 ∧
      s1.emitted = freshSocket.emitted ++ [("run_workflow",
        Value.obj [("flowId", Value.str "wf1"), ("token", Value.str "secret"),
                   ("input", if truthy Value.null then Value.null else Value.obj [])])] ∧
      (truthy Value.null = false → s1.emitted = freshSocket.emitted ++ [("run_workflow",
        Value.obj [("flowId", Value.str "wf1"), ("token", Value.str "secret"),
                   ("input", Value.obj [])])]) :=
  runWorkflow_payload_shape freshSocket "wf1" "secret" Value.null {}
    (by decide) (by decide) rfl

/-- C8 counterexample: on a socket whose `emit` throws, with no caller
override for `run_error`, the profile-default `run_error` handler IS
registered on the socket (so a resolved `run_error` handler exists), yet
`runWorkflow` raises a `WorkflowError` and invokes no handler at all —
refuting the claim that the resolved (override-or-profile-default)
handler is invoked and that the error is raised only when no `run_error`
handler is registered. -/
theorem runWorkflow_emitFail_counterexample :
    (runWorkflow (some brokenSocket) "wf1" "secret" Value.null {}).thrown
        = some (ThrownError.workflowError "Failed to start workflow execution") ∧
    ∃ s1, (runWorkflow (some brokenSocket) "wf1" "secret" Value.null {}).socket = some s1 ∧
      listenersFor "run_error" s1
        = [("run_error", Listener.wrappedTerminal false (mkH "quiet.run_error"))] ∧
      s1.invoked = [] :=
  ⟨rfl, _, rfl, rfl, rfl⟩

/-- C8 as amended: if emitting the run command throws, the caller's
`run_error` override (not the resolved profile default) is invoked
synchronously with a synthesized error payload when present — an
exception it raises escapes `runWorkflow` unwrapped — and when no
override is present `runWorkflow` raises a `WorkflowError` wrapping the
cause, even though a profile-default `run_error` listener is registered. -/
theorem runWorkflow_emitFail_override_or_raise
    (s0 : SocketState) (workflowId authToken : String) (input : Value)
    (opts : WorkflowRunnerOptions) (m : String)
    (hw : ¬ workflowId = "") (ht : ¬ authToken = "")
    (he : s0.emitError = some m) :
    (∀ h, lookupOverride opts.handlers "run_error" = some h →
      ∃ s1, (runWorkflow (some s0) workflowId authToken input opts).socket = some s1 ∧
        s1.invoked = s0.invoked ++ [(h.hid, "run_error")] ∧
        (runWorkflow (some s0) workflowId authToken input opts).thrown
          = (match h.run (Value.obj [("message", Value.str m), ("stack", Value.undef)]) with
             | HandlerOutcome.ok => none
             | HandlerOutcome.throws em => some (ThrownError.jsError em))) ∧
    (lookupOverride opts.handlers "run_error" = none →
      (runWorkflow (some s0) workflowId authToken input opts).thrown
        = some (ThrownError.workflowError "Failed to start workflow execution")) := by
  obtain ⟨l, hsetup⟩ := setupListeners_eq opts.handlers (chooseBase opts) s0
  have hem3 : (setupListeners opts.handlers (chooseBase opts) s0).emitError = some m := by
    rw [hsetup]
    exact he
  constructor
  · intro h hov
    simp only [runWorkflow]
    rw [if_neg hw, if_neg ht]
    unfold finishRun
    simp only [hem3, hov]
    rcases hr : h.run (Value.obj [("message", Value.str m), ("stack", Value.undef)])
        with _ | em
    · simp only [hr]
      refine ⟨_, rfl, ?_, trivial⟩
      rw [hsetup]
    · simp only [hr]
      refine ⟨_, rfl, ?_, trivial⟩
      rw [hsetup]
  · intro hov
    simp only [runWorkflow]
    rw [if_neg hw, if_neg ht]
    unfold finishRun
    simp only [hem3, hov]

/-- C8 amended witness: with a concrete broken socket, a supplied
`run_error` override is invoked (and nothing is raised), and without one
a `WorkflowError` is raised. -/
theorem runWorkflow_emitFail_override_or_raise_witness :
    (∃ s1, (runWorkflow (some brokenSocket) "wf1" "secret" Value.null
        { handlers := [("run_error", some (mkH "custom.run_error"))] }).socket = some s1 ∧
      s1.invoked = brokenSocket.invoked ++ [("custom.run_error", "run_error")]) ∧
    (runWorkflow (some brokenSocket) "wf1" "secret" Value.null {}).thrown
        = some (ThrownError.workflowError "Failed to start workflow execution") := by
  constructor
  · obtain ⟨s1, hs, hi, _⟩ :=
      (runWorkflow_emitFail_override_or_raise brokenSocket "wf1" "secret" Value.null
        { handlers := [("run_error", some (mkH "custom.run_error"))] } "boom"
        (by decide) (by decide) rfl).1 (mkH "custom.run_error") rfl
    exact ⟨s1, hs, hi⟩
  · exact (runWorkflow_emitFail_override_or_raise brokenSocket "wf1" "secret" Value.null
      {} "boom" (by decide) (by decide) rfl).2 rfl

/-! ## The handler profiles of the src/src/socket/workflow.ts revision -/

/-- `defaultHandlers` of src/src/socket/workflow.ts lines 62-107 (this
revision also covers `final_output`), keys in source insertion order. -/
def defaultHandlersWts : List (String × Handler) :=
  [("run_error", mkH "defaultWts.run_error"),
   ("run_warning", mkH "defaultWts.run_warning"),
   ("run_complete", mkH "defaultWts.run_complete"),
   ("run_start", mkH "defaultWts.run_start"),
   ("stream_output", mkH "defaultWts.stream_output"),
   ("node_error", mkH "defaultWts.node_error"),
   ("final_output", mkH "defaultWts.final_output"),
   ("workflow_received", mkH "defaultWts.workflow_received"),
   ("workflow_error", mkH "defaultWts.workflow_error")]

/-- `quietHandlers` of src/src/socket/workflow.ts lines 112-146. -/
def quietHandlersWts : List (String × Handler) :=
  [("run_error", mkH "quietWts.run_error"),
   ("run_warning", mkH "quietWts.run_warning"),
   ("run_complete", mkH "quietWts.run_complete"),
   ("run_start", mkH "quietWts.run_start"),
   ("stream_output", mkH "quietWts.stream_output"),
   ("node_error", mkH "quietWts.node_error"),
   ("final_output", mkH "quietWts.final_output"),
   ("workflow_received", mkH "quietWts.workflow_received"),
   ("workflow_error", mkH "quietWts.workflow_error")]

/-- `prettyLogHandlers` of src/src/socket/workflow.ts lines 151-225: this
table stops after `final_output` — it has no `workflow_received` and no
`workflow_error` entry. -/
def prettyLogHandlersWts : List (String × Handler) :=
  [("run_error", mkH "prettyWts.run_error"),
   ("run_warning", mkH "prettyWts.run_warning"),
   ("run_complete", mkH "prettyWts.run_complete"),
   ("run_start", mkH "prettyWts.run_start"),
   ("stream_output", mkH "prettyWts.stream_output"),
   ("node_error", mkH "prettyWts.node_error"),
   ("final_output", mkH "prettyWts.final_output")]

/-- The nine server-emitted event kinds of the workflow.ts protocol table
(`ServerEmittedEvents`, src/src/socket/workflow.ts lines 19-50). -/
def protocolEvents : List String :=
  ["run_start", "run_warning", "run_complete", "run_error", "stream_output",
   "node_error", "final_output", "workflow_received", "workflow_error"]

/-- C6 counterexample: `workflow_received` is in the protocol table, yet
the pretty profile of workflow.ts has no entry for it, so with no caller
override the override-or-default resolution yields no handler (and the
same holds for `workflow_error`). -/
theorem prettyProfile_missing_kinds :
    ("workflow_received" ∈ protocolEvents ∧
      resolveHandler [] prettyLogHandlersWts "workflow_received" = none) ∧
    ("workflow_error" ∈ protocolEvents ∧
      resolveHandler [] prettyLogHandlersWts "workflow_error" = none) :=
  ⟨⟨by decide, rfl⟩, ⟨by decide, rfl⟩⟩

/-- C6 as amended: in the workflow.ts revision, the verbose/default and
quiet profiles provide an entry for every one of the nine protocol event
kinds, but the pretty profile is missing exactly `workflow_received` and
`workflow_error`, for which resolution falls through to no handler when
no override is supplied; in the part_013 revision all three profiles
cover that revision's eight-kind table (which has no `final_output`). -/
theorem handlerProfiles_coverage :
    (protocolEvents.all (fun k => (lookupA defaultHandlersWts k).isSome)) = true ∧
    (protocolEvents.all (fun k => (lookupA quietHandlersWts k).isSome)) = true ∧
    (protocolEvents.all (fun k =>
      decide (k = "workflow_received") || decide (k = "workflow_error") ||
        (lookupA prettyLogHandlersWts k).isSome)) = true ∧
    lookupA prettyLogHandlersWts "workflow_received" = none ∧
    lookupA prettyLogHandlersWts "workflow_error" = none ∧
    (eventTypes13.all (fun k =>
      (lookupA defaultHandlers k).isSome && (lookupA quietHandlers k).isSome &&
        (lookupA prettyLogHandlers k).isSome)) = true :=
  ⟨rfl, rfl, rfl, rfl, rfl, rfl⟩

/-! ## connectSocket: URL normalization and the feedback bridge -/

/-- JavaScript's `String.prototype.startsWith`, modelled structurally on
the character lists of the two strings. -/
def strStartsWith (s p : String) : Bool :=
  p.data.isPrefixOf s.data

/-- The endpoint normalization of `connectSocket`
(src/src/socket/connect.ts lines 75-79): a url that starts with neither
`http://` nor `https://` is prefixed with `https://`; otherwise it is
used unchanged. -/
def normalizeUrl (url : String) : String :=
  if !(strStartsWith url "http://") && !(strStartsWith url "https://") then
    "https://" ++ url
  else url

/-- C9: `connectSocket` prefixes `https://` exactly when the url starts
with neither scheme, and leaves a url with a scheme unchanged. -/
theorem connect_url_normalization (url : String) :
    (strStartsWith url "http://" = false → strStartsWith url "https://" = false →
      normalizeUrl url = "https://" ++ url) ∧
    (strStartsWith url "http://" = true ∨ strStartsWith url "https://" = true →
      normalizeUrl url = url) := by
  constructor
  · intro h1 h2
    unfold normalizeUrl
    rw [h1, h2]
    rfl
  · intro h
    unfold normalizeUrl
    rcases h with h | h <;> rw [h] <;> simp

/-- C9 witness: a bare host gains the secure scheme; urls that already
carry a scheme are unchanged. -/
theorem connect_url_normalization_witness :
    normalizeUrl "example.com" = "https://example.com" ∧
    normalizeUrl "http://example.com" = "http://example.com" ∧
    normalizeUrl "https://api.pocketflow.ai" = "https://api.pocketflow.ai" := by
  refine ⟨?_, ?_, ?_⟩
  · exact (connect_url_normalization "example.com").1 (by decide) (by decide)
  · exact (connect_url_normalization "http://example.com").2 (Or.inl (by decide))
  · exact (connect_url_normalization "https://api.pocketflow.ai").2 (Or.inr (by decide))

/-- What the caller's feedback callback does when invoked: return a value
synchronously, return a promise (that later resolves or rejects), or
throw synchronously. -/
inductive FeedbackResult where
  | value (v : Value)
  | promiseResolve (v : Value)
  | promiseReject (msg : String)
  | throws (msg : String)

/-- The `feedback_request` listener installed by `connectSocket`
(src/src/socket/connect.ts lines 266-279): call the callback; if the
result is a promise, emit `feedback_response` from its `.then` (there is
no `.catch`, so a rejection emits nothing); otherwise emit immediately
(there is no `try`, so a synchronous throw escapes the listener before
any emission — the second component carries the escaped error). -/
def feedbackRequestListener (handleFeedback : Value → FeedbackResult) (data : Value)
    (s : SocketState) : SocketState × Option String :=
  match handleFeedback data with
  | FeedbackResult.throws m => (s, some m)
  | FeedbackResult.promiseResolve v =>
      (emitEvent "feedback_response" (Value.obj [("input", v)]) s, none)
  | FeedbackResult.promiseReject _ => (s, none)
  | FeedbackResult.value v =>
      (emitEvent "feedback_response" (Value.obj [("input", v)]) s, none)

/-- C7 counterexample: a feedback callback that throws synchronously
produces no `feedback_response` at all (the exception escapes), and a
rejecting promise also produces no response — refuting the claim that a
response (with a null input and error description) is always emitted. -/
theorem feedback_throw_no_response :
    (feedbackRequestListener (fun _ => FeedbackResult.throws "boom") Value.null
        freshSocket).1.emitted = [] ∧
    (feedbackRequestListener (fun _ => FeedbackResult.throws "boom") Value.null
        freshSocket).2 = some "boom" ∧
    (feedbackRequestListener (fun _ => FeedbackResult.promiseReject "boom") Value.null
        freshSocket).1.emitted = [] :=
  ⟨rfl, rfl, rfl⟩

/-- C7 as amended: a `feedback_response` carrying the callback's value is
emitted exactly when the callback returns a value or a resolving promise;
when the callback throws synchronously the exception escapes and nothing
is emitted, and when its promise rejects nothing is emitted either. -/
theorem feedbackListener_behavior (handleFeedback : Value → FeedbackResult)
    (data : Value) (s : SocketState) :
    (∀ v, handleFeedback data = FeedbackResult.value v →
      feedbackRequestListener handleFeedback data s
        = (emitEvent "feedback_response" (Value.obj [("input", v)]) s, none)) ∧
    (∀ v, handleFeedback data = FeedbackResult.promiseResolve v →
      feedbackRequestListener handleFeedback data s
        = (emitEvent "feedback_response" (Value.obj [("input", v)]) s, none)) ∧
    (∀ m, handleFeedback data = FeedbackResult.throws m →
      feedbackRequestListener handleFeedback data s = (s, some m)) ∧
    (∀ m, handleFeedback data = FeedbackResult.promiseReject m →
      feedbackRequestListener handleFeedback data s = (s, none)) := by
  refine ⟨?_, ?_, ?_, ?_⟩ <;> intro x hx <;> unfold feedbackRequestListener <;> rw [hx]

/-- C7 amended witness: the four callback behaviours at concrete inputs. -/
theorem feedbackListener_behavior_witness :
    feedbackRequestListener (fun _ => FeedbackResult.value (Value.str "yes"))
        Value.null freshSocket
      = (emitEvent "feedback_response" (Value.obj [("input", Value.str "yes")])
          freshSocket, none) ∧
    feedbackRequestListener (fun _ => FeedbackResult.promiseResolve (Value.str "ok"))
        Value.null freshSocket
      = (emitEvent "feedback_response" (Value.obj [("input", Value.str "ok")])
          freshSocket, none) ∧
    feedbackRequestListener (fun _ => FeedbackResult.throws "boom") Value.null freshSocket
      = (freshSocket, some "boom") ∧
    feedbackRequestListener (fun _ => FeedbackResult.promiseReject "late") Value.null
        freshSocket
      = (freshSocket, none) :=
  ⟨(feedbackListener_behavior (fun _ => FeedbackResult.value (Value.str "yes"))
      Value.null freshSocket).1 (Value.str "yes") rfl,
   (feedbackListener_behavior (fun _ => FeedbackResult.promiseResolve (Value.str "ok"))
      Value.null freshSocket).2.1 (Value.str "ok") rfl,
   (feedbackListener_behavior (fun _ => FeedbackResult.throws "boom")
      Value.null freshSocket).2.2.1 "boom" rfl,
   (feedbackListener_behavior (fun _ => FeedbackResult.promiseReject "late")
      Value.null freshSocket).2.2.2 "late" rfl⟩
